import Mathlib

/-!
Shallow embedding of the LingPet desktop-pet frontend (Tauri + Vue), covering:

* `src/composables/chat/useConversation.ts` — the conversation sequencer
  (`startConversation`, `playNext`, `endConversation`);
* `src/composables/usePet.ts` — emotion switching (`switchEmotion`);
* `src/services/aiService.ts` — the AI chat client (`validateAIConfig`,
  `chatWithPet`);
* `src/services/windowFactory.ts` — window instance bookkeeping
  (`createWindow`, `closeWindow`) and the debounced settings-window
  position persistence (`setupSettingsWindowPersistence`);
* the chat-bubble page component — its auto-hide scheduling condition.

Stateful TypeScript is modelled by explicit state passing; side effects
(callbacks, `localStorage` writes, window creation) are recorded as an
explicit list of `Effect` events in the order the code performs them.
-/

namespace LingPet

/-- Modelled from the spec: the fixed emotion list `EMOTIONS` of
`src/constants/emotions.ts` is not among the sources; it is reconstructed
from the `EmotionName` union type declared in `src/types/emotion.ts`
(19 sprite file names) together with the README's emotion list. -/
def EMOTIONS : List String :=
  ["正常.png", "高兴.png", "伤心.png", "生气.png", "害怕.png",
   "惊讶.png", "厌恶.png", "害羞.png", "兴奋.png", "担心.png",
   "调皮.png", "慌张.png", "紧张.png", "认真.png", "无奈.png",
   "心动.png", "羞耻.png", "自信.png", "疑惑.png"]

/-- Modelled from the spec: `DEFAULT_EMOTION` of `src/constants/emotions.ts`
is not among the sources; the spec calls it "a default idle sprite", and the
idle sprite is the neutral expression `正常.png`. -/
def DEFAULT_EMOTION : String := "正常.png"

/-- `ConversationMessage` from `useConversation.ts`. -/
structure ConversationMessage where
  message : String
  emotion : String
  japanese : String
deriving Repr, DecidableEq

/-- The three refs held by `useConversation`. -/
structure ConvState where
  isInConversation : Bool
  conversationMessages : List ConversationMessage
  conversationIndex : Nat
deriving Repr, DecidableEq

/-- Observable side effects of the conversation sequencer, in program order:
the two callbacks (`onShakeEffect`, `onEmotionChange`), each
`localStorage.setItem`/`removeItem` keyed by the storage key it touches,
and the bubble-window creation performed through `createNotificationWindow`
(which fixes `autoHide := true`, `autoHideDelay := 3000`). -/
inductive Effect where
  | shake
  | emotionChange (emotion : String)
  | storeBubbleMessages (messages : List ConversationMessage)
  | storeMessageIndex (i : Nat)
  | storeBubbleMessage (text : String)
  | storeCurrentEmotion (emotion : String)
  | removeBubbleMessages
  | removeMessageIndex
  | removeBubbleMessage
  | storeCloseBubble
  | createBubbleWindow (text : String) (autoHide : Bool) (autoHideDelay : Nat)
deriving Repr, DecidableEq

/-- `startConversation` (useConversation.ts lines 32-55).  The incoming ref
state is irrelevant: all three refs are overwritten.  `messages[0]?.emotion`
is truthy exactly when the list is non-empty and the first emotion is a
non-empty string; `messages[0]?.message || ''` falls back to `""` and
`messages[0]?.emotion || DEFAULT_EMOTION` falls back to `DEFAULT_EMOTION`. -/
def startConversation (messages : List ConversationMessage) :
    ConvState × List Effect :=
  let s : ConvState :=
    { isInConversation := true
      conversationMessages := messages
      conversationIndex := 0 }
  let emoEffects : List Effect :=
    match messages.head? with
    | some m =>
        if m.emotion ≠ "" then [Effect.shake, Effect.emotionChange m.emotion]
        else []
    | none => []
  let firstText : String := ((messages.head?).map (·.message)).getD ""
  let firstEmotion : String :=
    match messages.head? with
    | some m => if m.emotion ≠ "" then m.emotion else DEFAULT_EMOTION
    | none => DEFAULT_EMOTION
  (s, emoEffects ++
    [Effect.storeBubbleMessages messages,
     Effect.storeMessageIndex 0,
     Effect.storeBubbleMessage firstText,
     Effect.storeCurrentEmotion firstEmotion,
     Effect.createBubbleWindow firstText true 3000])

/-- `endConversation` (useConversation.ts lines 88-98): resets the three
refs, removes the three bubble keys and writes a `closeBubble` timestamp. -/
def endConversation (_s : ConvState) : ConvState × List Effect :=
  (⟨false, [], 0⟩,
   [Effect.removeBubbleMessages, Effect.removeMessageIndex,
    Effect.removeBubbleMessage, Effect.storeCloseBubble])

/-- `playNext` (useConversation.ts lines 58-85).  Returns the new ref state,
the effects in order, and the boolean return value.  The JS guard
`conversationIndex < conversationMessages.length - 1` is evaluated over the
integers (for an empty list it compares against `-1`). -/
def playNext (s : ConvState) : ConvState × List Effect × Bool :=
  if s.isInConversation = false then (s, [], false)
  else if (s.conversationIndex : Int) < (s.conversationMessages.length : Int) - 1 then
    let newIndex := s.conversationIndex + 1
    let s' := { s with conversationIndex := newIndex }
    match s.conversationMessages[newIndex]? with
    | some nextMessage =>
        (s', [Effect.shake,
              Effect.emotionChange nextMessage.emotion,
              Effect.storeMessageIndex newIndex,
              Effect.storeBubbleMessage nextMessage.message,
              Effect.storeCurrentEmotion nextMessage.emotion], true)
    | none => (s', [Effect.shake], true)
  else
    let e := endConversation s
    (e.1, Effect.shake :: (e.2 ++ [Effect.emotionChange DEFAULT_EMOTION]), false)

/-- The chat-bubble page computes `hasMultipleMessages` from the
`bubbleMessages` list stored by `startConversation`: true iff more than one
message. -/
def hasMultipleMessagesB (messages : List ConversationMessage) : Bool :=
  decide (1 < messages.length)

/-- The chat-bubble page schedules its auto-hide timer, once typing
finishes, only under `props.autoHide && props.message &&
!hasMultipleMessages.value`; `props.message` is truthy iff non-empty. -/
def bubbleSchedulesAutoHide (autoHide : Bool) (text : String)
    (messages : List ConversationMessage) : Bool :=
  autoHide && (!(text == "")) && (!(hasMultipleMessagesB messages))

/-- `getRandomEmotion` (usePet.ts lines 36-39):
`EMOTIONS[Math.floor(Math.random() * EMOTIONS.length)]`.  The random draw is
modelled by an index below `EMOTIONS.length`. -/
def getRandomEmotion (randomIndex : Fin EMOTIONS.length) : String :=
  EMOTIONS.get randomIndex

/-- The do/while loop of `switchEmotion` (usePet.ts lines 42-51), fed by a
finite supply of random draws; `none` models exhausting the supply before
the loop exits (the JS loop would keep drawing). -/
def switchEmotionLoop (current : String) :
    List (Fin EMOTIONS.length) → Option String
  | [] => none
  | d :: rest =>
      if getRandomEmotion d = current ∧ 1 < EMOTIONS.length then
        switchEmotionLoop current rest
      else some (getRandomEmotion d)

/-- `switchEmotion` (usePet.ts lines 42-51): draws random emotions until one
differs from the current emotion (when the emotion list has more than one
element), then returns the emotion assigned to `currentEmotion`. -/
def switchEmotion (current : String) (draws : List (Fin EMOTIONS.length)) :
    Option String :=
  switchEmotionLoop current draws

/-- The AI configuration record `configStore.ai` as used by
`aiService.ts`. -/
structure AIConfig where
  api_key : String
  base_url : String
  model : String
  system_prompt : String
  temperature : ℚ
  max_tokens : Nat
deriving Repr, DecidableEq

/-- `validateAIConfig` (aiService.ts lines 10-17):
`Boolean(api_key && base_url && model)`; a string is truthy iff
non-empty. -/
def validateAIConfig (cfg : AIConfig) : Bool :=
  (!(cfg.api_key == "")) && (!(cfg.base_url == "")) && (!(cfg.model == ""))

/-- JSON values, the possible results of `JSON.parse` on the AI reply
content. -/
inductive JValue where
  | null
  | bool (b : Bool)
  | num (q : ℚ)
  | str (s : String)
  | arr (elems : List JValue)
  | obj (fields : List (String × JValue))
deriving Repr

/-- JS property access on a parsed JSON object; `JSON.parse` keeps the last
of duplicate keys. -/
def jLookup (fields : List (String × JValue)) (key : String) :
    Option JValue :=
  (fields.reverse.find? (fun p => p.1 == key)).map (·.2)

/-- `typeof x === 'string'` for an optional property value. -/
def isStr : Option JValue → Bool
  | some (JValue.str _) => true
  | _ => false

/-- `true` unless the value is JSON `null`. -/
def isNotNull : JValue → Bool
  | JValue.null => false
  | _ => true

/-- `EMOTIONS.includes(item.emotion)` applied to the optional `emotion`
property: true iff it is a string belonging to `EMOTIONS`. -/
def emotionFieldValid (v : Option JValue) : Bool :=
  match v with
  | some (JValue.str e) => EMOTIONS.contains e
  | _ => false

/-- The filter predicate of `chatWithPet` (aiService.ts lines 89-94):
`typeof item === 'object' && typeof item.message === 'string' && typeof
item.emotion === 'string' && typeof item.japanese === 'string' &&
EMOTIONS.includes(item.emotion)`.  `typeof null` and `typeof` of an array
are both `'object'`, but reading `.message` from `null` throws a
`TypeError`, modelled as `Except.error ()`; property reads on an array
yield `undefined`. -/
def checkPetItem : JValue → Except Unit Bool
  | JValue.null => Except.error ()
  | JValue.obj fields =>
      Except.ok (isStr (jLookup fields "message") &&
        isStr (jLookup fields "emotion") &&
        isStr (jLookup fields "japanese") &&
        emotionFieldValid (jLookup fields "emotion"))
  | JValue.arr _ => Except.ok false
  | _ => Except.ok false

/-- An element of a successful `PetResponse.data` (types/ai). -/
structure PetResponseItem where
  message : String
  emotion : String
  japanese : String
deriving Repr, DecidableEq

/-- String read of an object property, defined on the values the filter
lets through. -/
def jStr : Option JValue → String
  | some (JValue.str s) => s
  | _ => ""

/-- The `.map` step of `chatWithPet` (aiService.ts lines 95-99), building a
`PetResponseItem` from a validated element. -/
def extractItem : JValue → PetResponseItem
  | JValue.obj fields =>
      ⟨jStr (jLookup fields "message"), jStr (jLookup fields "emotion"),
       jStr (jLookup fields "japanese")⟩
  | _ => ⟨"", "", ""⟩

/-- `parsedResponse.filter(...).map(...)` (aiService.ts lines 89-99), fused:
the predicate is evaluated on every element in order and a thrown
`TypeError` (a `null` element) aborts the whole computation. -/
def filterValidItems : List JValue → Except Unit (List PetResponseItem)
  | [] => Except.ok []
  | item :: rest =>
      match checkPetItem item with
      | Except.error e => Except.error e
      | Except.ok b =>
          match filterValidItems rest with
          | Except.error e => Except.error e
          | Except.ok tail =>
              Except.ok (if b then extractItem item :: tail else tail)

/-- `PetResponse` (types/ai): `success`, optional `data`, optional
`error`. -/
structure PetResponse where
  success : Bool
  data : Option (List PetResponseItem)
  error : Option String
deriving Repr, DecidableEq

/-- The AI reply as far as `chatWithPet` inspects it:
`choices[0]?.message?.content` together with the outcome of
`JSON.parse(content)` (`none` models a parse exception). -/
structure AIReply where
  content : String
  parsed : Option JValue

/-- Outcome of `callAI`: either it throws (network failure or non-ok HTTP
status), or it yields an optional reply content (`none` when
`choices[0]?.message?.content` is `undefined`). -/
inductive NetOutcome where
  | fail (msg : String)
  | ok (content : Option AIReply)

/-- `chatWithPet` (aiService.ts lines 49-119).  The second component records
whether the HTTP endpoint was contacted (`callAI` invoked). -/
def chatWithPet (cfg : AIConfig) (net : NetOutcome) : PetResponse × Bool :=
  if validateAIConfig cfg = false then
    ({ success := false, data := none, error := some "请正确配置AI服务" }, false)
  else
    match net with
    | NetOutcome.fail msg =>
        ({ success := false, data := none,
           error := some ("对话失败: " ++ msg) }, true)
    | NetOutcome.ok none =>
        ({ success := false, data := none, error := some "AI服务返回空响应" }, true)
    | NetOutcome.ok (some reply) =>
        if reply.content = "" then
          ({ success := false, data := none, error := some "AI服务返回空响应" }, true)
        else
          match reply.parsed with
          | none => ({ success := false, data := none, error := none }, true)
          | some (JValue.arr items) =>
              (match filterValidItems items with
               | Except.error _ =>
                   ({ success := false, data := none, error := none }, true)
               | Except.ok validItems =>
                   if 0 < validItems.length then
                     ({ success := true, data := some validItems,
                        error := none }, true)
                   else
                     ({ success := false, data := none, error := none }, true))
          | some _ => ({ success := false, data := none, error := none }, true)

/-- Claim-side notion of a valid reply element, written from the words of
the implicit specification: an object whose `message` and `japanese` fields
are strings and whose `emotion` field is a string belonging to the fixed
emotion list. -/
def isValidPetItem : JValue → Bool
  | JValue.obj fields =>
      isStr (jLookup fields "message") &&
        isStr (jLookup fields "japanese") &&
        emotionFieldValid (jLookup fields "emotion")
  | _ => false

/-- The debounce interval of `setupSettingsWindowPersistence`
(windowFactory.ts line 346). -/
def DEBOUNCE_MS : Nat := 200

/-- The debounce of `setupSettingsWindowPersistence` (windowFactory.ts
lines 319-352): each move/resize event clears the pending timeout and
schedules a save `DEBOUNCE_MS` later.  Given the ascending arrival times of
the events, returns the times at which a save actually fires: event `i`'s
timer survives iff no further event arrives strictly before it fires. -/
def debounceFires : List Nat → List Nat
  | [] => []
  | [t] => [t + DEBOUNCE_MS]
  | t1 :: t2 :: rest =>
      (if t2 < t1 + DEBOUNCE_MS then [] else [t1 + DEBOUNCE_MS]) ++
        debounceFires (t2 :: rest)

/-- A window position/size rectangle (coordinates as exact numbers). -/
structure SettingsWindowBounds where
  x : ℚ
  y : ℚ
  width : ℚ
  height : ℚ
deriving Repr, DecidableEq

/-- The body of the debounced save (windowFactory.ts lines 325-341): reads
the physical inner position and size and writes the logical values —
physical divided by the scale factor — into the window configuration. -/
def performDebouncedSave (physical : SettingsWindowBounds) (scaleFactor : ℚ) :
    SettingsWindowBounds :=
  { x := physical.x / scaleFactor
    y := physical.y / scaleFactor
    width := physical.width / scaleFactor
    height := physical.height / scaleFactor }

/-- A registered window instance (class `WindowInstance`), reduced to the
data the bookkeeping claims depend on. -/
structure WinInstance where
  label : String
  createdAt : Nat
deriving Repr, DecidableEq

/-- `WindowFactory.instances`: a JS `Map` from labels to instances,
modelled as an insertion-ordered association list. -/
abbrev WindowMap := List (String × WinInstance)

/-- `Map.prototype.set`: replace in place if the key is present, else
append. -/
def mapSet (m : WindowMap) (k : String) (v : WinInstance) : WindowMap :=
  if m.any (fun p => p.1 == k) then
    m.map (fun p => if p.1 == k then (k, v) else p)
  else m ++ [(k, v)]

/-- `Map.prototype.delete`. -/
def mapDelete (m : WindowMap) (k : String) : WindowMap :=
  m.filter (fun p => !(p.1 == k))

/-- `Map.prototype.get`. -/
def mapGet (m : WindowMap) (k : String) : Option WinInstance :=
  (m.find? (fun p => p.1 == k)).map (·.2)

/-- `WindowFactory.closeWindow` (windowFactory.ts lines 357-373) as it acts
on the instances map: close the instance and delete its entry. -/
def closeWindowOp (m : WindowMap) (label : String) : WindowMap :=
  mapDelete m label

/-- `WindowFactory.createWindow` (windowFactory.ts lines 106-139) as it
acts on the instances map: first `closeWindow(label)`, then — if the
type-specific creation returns a window rather than null (`creationOk`) —
register the new instance under the label. -/
def createWindowOp (m : WindowMap) (label : String) (inst : WinInstance)
    (creationOk : Bool) : WindowMap :=
  let m1 := closeWindowOp m label
  if creationOk then mapSet m1 label inst else m1

/-- The operations that mutate `WindowFactory.instances`: `createWindow`,
`closeWindow`, and the `tauri://destroyed` / `tauri://error` handlers
installed by `setupWindowEvents` (both just delete the label). -/
inductive WinOp where
  | create (label : String) (inst : WinInstance) (ok : Bool)
  | close (label : String)
  | destroyed (label : String)

/-- One step of the instances-map bookkeeping. -/
def applyWinOp (m : WindowMap) : WinOp → WindowMap
  | WinOp.create label inst ok => createWindowOp m label inst ok
  | WinOp.close label => closeWindowOp m label
  | WinOp.destroyed label => mapDelete m label

/-- A whole sequence of window operations. -/
def runWinOps (m : WindowMap) (ops : List WinOp) : WindowMap :=
  ops.foldl applyWinOp m

/-!  Theorems about the conversation sequencer. -/

/-- C1 counterexample: the claim asserts that for every non-empty turn list
the emotion-change callback is invoked with `turns[0].emotion`; but
`startConversation` guards the callback behind the truthiness of
`messages[0]?.emotion`, so for a first turn whose emotion is the empty
string the callback is never invoked. -/
theorem startConversation_empty_emotion_cex :
    Effect.emotionChange "" ∉ (startConversation [⟨"hi", "", ""⟩]).2 := by
  decide

/-- C1 (amended): for every turn list whose first turn has a non-empty
emotion, `startConversation` resets the cursor to 0, sets
`isInConversation`, triggers the shake and emotion-change callbacks with
`turns[0].emotion`, stores `turns[0]`'s text and emotion for the bubble and
opens the bubble window showing `turns[0].message`. -/
theorem startConversation_spec (messages : List ConversationMessage)
    (m : ConversationMessage) (hhead : messages.head? = some m)
    (hemo : m.emotion ≠ "") :
    startConversation messages =
      ({ isInConversation := true, conversationMessages := messages,
         conversationIndex := 0 },
       [Effect.shake, Effect.emotionChange m.emotion,
        Effect.storeBubbleMessages messages,
        Effect.storeMessageIndex 0,
        Effect.storeBubbleMessage m.message,
        Effect.storeCurrentEmotion m.emotion,
        Effect.createBubbleWindow m.message true 3000]) := by
  simp [startConversation, hhead, hemo]

/-- C1 witness. -/
theorem startConversation_spec_witness :
    startConversation [⟨"你好", "高兴.png", "こんにちは"⟩] =
      ({ isInConversation := true,
         conversationMessages := [⟨"你好", "高兴.png", "こんにちは"⟩],
         conversationIndex := 0 },
       [Effect.shake, Effect.emotionChange "高兴.png",
        Effect.storeBubbleMessages [⟨"你好", "高兴.png", "こんにちは"⟩],
        Effect.storeMessageIndex 0,
        Effect.storeBubbleMessage "你好",
        Effect.storeCurrentEmotion "高兴.png",
        Effect.createBubbleWindow "你好" true 3000]) :=
  startConversation_spec [⟨"你好", "高兴.png", "こんにちは"⟩]
    ⟨"你好", "高兴.png", "こんにちは"⟩ rfl (by decide)

/-- C2: with a conversation in progress, `playNext` advances the cursor;
when the new cursor is within bounds it switches to that turn's emotion,
re-renders the bubble with that turn's text and returns `true`; when the
new cursor would pass the end of the list it ends the conversation,
signals the bubble window to close, resets the emotion to the default idle
sprite and returns `false`. -/
theorem playNext_spec (s : ConvState) (h : s.isInConversation = true) :
    (s.conversationIndex + 1 < s.conversationMessages.length →
      ∃ m, s.conversationMessages[s.conversationIndex + 1]? = some m ∧
        playNext s =
          ({ s with conversationIndex := s.conversationIndex + 1 },
           [Effect.shake, Effect.emotionChange m.emotion,
            Effect.storeMessageIndex (s.conversationIndex + 1),
            Effect.storeBubbleMessage m.message,
            Effect.storeCurrentEmotion m.emotion], true)) ∧
    (s.conversationMessages.length ≤ s.conversationIndex + 1 →
      playNext s =
        (⟨false, [], 0⟩,
         [Effect.shake, Effect.removeBubbleMessages, Effect.removeMessageIndex,
          Effect.removeBubbleMessage, Effect.storeCloseBubble,
          Effect.emotionChange DEFAULT_EMOTION], false)) := by
  constructor
  · intro hlt
    have hcond : (s.conversationIndex : Int) <
        (s.conversationMessages.length : Int) - 1 := by omega
    obtain ⟨m, hget⟩ :
        ∃ m, s.conversationMessages[s.conversationIndex + 1]? = some m :=
      ⟨_, List.getElem?_eq_getElem hlt⟩
    exact ⟨m, hget, by simp [playNext, h, hcond, hget]⟩
  · intro hge
    have hcond : ¬ ((s.conversationIndex : Int) <
        (s.conversationMessages.length : Int) - 1) := by omega
    simp [playNext, h, hcond, endConversation]

/-- C2 witness (final-turn branch). -/
theorem playNext_spec_witness :
    playNext ⟨true, [⟨"a", "高兴.png", "x"⟩], 0⟩ =
      (⟨false, [], 0⟩,
       [Effect.shake, Effect.removeBubbleMessages, Effect.removeMessageIndex,
        Effect.removeBubbleMessage, Effect.storeCloseBubble,
        Effect.emotionChange DEFAULT_EMOTION], false) :=
  (playNext_spec ⟨true, [⟨"a", "高兴.png", "x"⟩], 0⟩ rfl).2 (by decide)

/-- C3 counterexample: the claim asserts that no state outside the three
in-memory refs is written by the sequencer; but `startConversation` writes
the `bubbleMessage` (and other) `localStorage` keys. -/
theorem startConversation_writes_storage_cex :
    Effect.storeBubbleMessage "hi" ∈
      (startConversation [⟨"hi", "高兴.png", "や"⟩]).2 := by
  decide

/-- C3 (amended): ending the sequence discards all sequencer ref state —
`endConversation` resets the refs to the empty conversation and removes
the `bubbleMessages`/`currentMessageIndex`/`bubbleMessage` keys — but the
sequencer does write state outside the refs: `startConversation` writes
the bubble `localStorage` keys and `endConversation` writes a
`closeBubble` timestamp. -/
theorem endConversation_discards_state (s : ConvState) :
    endConversation s =
      (⟨false, [], 0⟩,
       [Effect.removeBubbleMessages, Effect.removeMessageIndex,
        Effect.removeBubbleMessage, Effect.storeCloseBubble]) := rfl

/-- C4: while a turn before the last is being displayed (so the stored
turn list has a later turn, hence more than one element), the bubble page
never schedules its auto-hide timer: the scheduling condition includes
`!hasMultipleMessages`. -/
theorem bubble_no_autohide_before_last (messages : List ConversationMessage)
    (i : Nat) (hi : i + 1 < messages.length) (autoHide : Bool)
    (text : String) :
    bubbleSchedulesAutoHide autoHide text messages = false := by
  have hmul : hasMultipleMessagesB messages = true := by
    simp only [hasMultipleMessagesB, decide_eq_true_eq]
    omega
  simp [bubbleSchedulesAutoHide, hmul]

/-- C4 witness. -/
theorem bubble_no_autohide_before_last_witness :
    bubbleSchedulesAutoHide true "第一句"
      [⟨"第一句", "高兴.png", "a"⟩, ⟨"第二句", "伤心.png", "b"⟩] = false :=
  bubble_no_autohide_before_last _ 0 (by decide) _ _

/-- C5: whenever the click-triggered `switchEmotion` loop assigns a new
emotion, that emotion belongs to the fixed emotion list, and — the list
having more than one element — it differs from the emotion displayed
before the click. -/
theorem switchEmotion_spec (current : String)
    (draws : List (Fin EMOTIONS.length)) (e : String)
    (h : switchEmotion current draws = some e) :
    e ∈ EMOTIONS ∧ (1 < EMOTIONS.length → e ≠ current) := by
  induction draws with
  | nil => simp [switchEmotion, switchEmotionLoop] at h
  | cons d rest ih =>
      rw [switchEmotion, switchEmotionLoop] at h
      by_cases hc : getRandomEmotion d = current ∧ 1 < EMOTIONS.length
      · rw [if_pos hc] at h
        exact ih h
      · rw [if_neg hc] at h
        obtain rfl : getRandomEmotion d = e := by simpa using h
        refine ⟨List.get_mem EMOTIONS d.1 d.2, fun hlen heq => hc ⟨heq, hlen⟩⟩

/-- C5 witness: starting from the idle sprite, a redraw that first repeats
the current emotion and then draws `高兴.png` ends with a different member
of the list. -/
theorem switchEmotion_spec_witness :
    "高兴.png" ∈ EMOTIONS ∧ (1 < EMOTIONS.length → "高兴.png" ≠ "正常.png") :=
  switchEmotion_spec "正常.png" [⟨0, by decide⟩, ⟨1, by decide⟩] "高兴.png"
    (by decide)

/-- C9: when no conversation is in progress, `playNext` returns `false`,
invokes no callback, performs no write and leaves the refs unchanged. -/
theorem playNext_idle_noop (s : ConvState) (h : s.isInConversation = false) :
    playNext s = (s, [], false) := by
  simp [playNext, h]

/-- C9 witness. -/
theorem playNext_idle_noop_witness :
    playNext ⟨false, [⟨"a", "高兴.png", "x"⟩], 2⟩ =
      (⟨false, [⟨"a", "高兴.png", "x"⟩], 2⟩, [], false) :=
  playNext_idle_noop _ rfl

/-!  Theorems about the AI service. -/

/-- `validateAIConfig` passes exactly when the three fields are
non-empty. -/
theorem validateAIConfig_eq_true (cfg : AIConfig) :
    validateAIConfig cfg = true ↔
      cfg.api_key ≠ "" ∧ cfg.base_url ≠ "" ∧ cfg.model ≠ "" := by
  simp [validateAIConfig, and_assoc]

/-- C6: `chatWithPet` contacts the endpoint exactly when `api_key`,
`base_url` and `model` are all non-empty; with any of them missing it
returns the fixed configuration error without contacting the endpoint; a
network failure and a JSON-parse failure are both caught and returned as
an unsuccessful `PetResponse`. -/
theorem chatWithPet_error_handling (cfg : AIConfig) (net : NetOutcome) :
    ((chatWithPet cfg net).2 = true ↔
      cfg.api_key ≠ "" ∧ cfg.base_url ≠ "" ∧ cfg.model ≠ "") ∧
    ((cfg.api_key = "" ∨ cfg.base_url = "" ∨ cfg.model = "") →
      chatWithPet cfg net =
        ({ success := false, data := none,
           error := some "请正确配置AI服务" }, false)) ∧
    (∀ msg, net = NetOutcome.fail msg →
      (chatWithPet cfg net).1.success = false) ∧
    (∀ reply, net = NetOutcome.ok (some reply) → reply.parsed = none →
      (chatWithPet cfg net).1.success = false) := by
  have hsnd : (chatWithPet cfg net).2 = validateAIConfig cfg := by
    by_cases hv : validateAIConfig cfg = false
    · simp [chatWithPet, hv]
    · have hv' : validateAIConfig cfg = true := by
        revert hv; cases validateAIConfig cfg <;> simp
      rw [hv']
      cases net with
      | fail msg => simp [chatWithPet, hv]
      | ok c =>
        cases c with
        | none => simp [chatWithPet, hv]
        | some reply =>
          by_cases hc : reply.content = ""
          · simp [chatWithPet, hv, hc]
          · cases hp : reply.parsed with
            | none => simp [chatWithPet, hv, hc, hp]
            | some v =>
              cases v with
              | null => simp [chatWithPet, hv, hc, hp]
              | bool b => simp [chatWithPet, hv, hc, hp]
              | num q => simp [chatWithPet, hv, hc, hp]
              | str s => simp [chatWithPet, hv, hc, hp]
              | obj fields => simp [chatWithPet, hv, hc, hp]
              | arr items =>
                cases hf : filterValidItems items with
                | error e => simp [chatWithPet, hv, hc, hp, hf]
                | ok validItems =>
                  by_cases hl : 0 < validItems.length
                  · simp [chatWithPet, hv, hc, hp, hf, hl]
                  · simp [chatWithPet, hv, hc, hp, hf, hl]
  refine ⟨by rw [hsnd]; exact validateAIConfig_eq_true cfg, ?_, ?_, ?_⟩
  · intro hmiss
    have hv : validateAIConfig cfg = false := by
      rcases hmiss with h | h | h <;> simp [validateAIConfig, h]
    simp [chatWithPet, hv]
  · rintro msg rfl
    by_cases hv : validateAIConfig cfg = false
    · simp [chatWithPet, hv]
    · simp [chatWithPet, hv]
  · rintro reply rfl hp
    by_cases hv : validateAIConfig cfg = false
    · simp [chatWithPet, hv]
    · by_cases hc : reply.content = ""
      · simp [chatWithPet, hv, hc]
      · simp [chatWithPet, hv, hc, hp]

/-- C6 witness: a missing api_key yields the configuration error without
contacting the endpoint. -/
theorem chatWithPet_error_handling_witness :
    chatWithPet ⟨"", "https://api.openai.com/v1", "gpt-4o", "", 1, 100⟩
        (NetOutcome.fail "boom") =
      ({ success := false, data := none,
         error := some "请正确配置AI服务" }, false) :=
  (chatWithPet_error_handling
      ⟨"", "https://api.openai.com/v1", "gpt-4o", "", 1, 100⟩
      (NetOutcome.fail "boom")).2.1 (Or.inl rfl)

/-- On a non-null element, the source's filter predicate evaluates without
throwing, to the claim-side validity of the element. -/
theorem checkPetItem_eq_ok (item : JValue) (h : isNotNull item = true) :
    checkPetItem item = Except.ok (isValidPetItem item) := by
  cases item with
  | null => simp [isNotNull] at h
  | bool b => rfl
  | num q => rfl
  | str s => rfl
  | arr xs => rfl
  | obj fields =>
      simp only [checkPetItem, isValidPetItem, Except.ok.injEq]
      cases hE : jLookup fields "emotion" with
      | none => simp [isStr, emotionFieldValid]
      | some v => cases v <;> simp [isStr, emotionFieldValid]

/-- Without a null element, the filter-and-map computes the subsequence of
valid elements, extracted in order. -/
theorem filterValidItems_of_noNull (items : List JValue)
    (h : ∀ i ∈ items, isNotNull i = true) :
    filterValidItems items =
      Except.ok ((items.filter isValidPetItem).map extractItem) := by
  induction items with
  | nil => rfl
  | cons item rest ih =>
      have hhd : isNotNull item = true := h item (List.mem_cons_self _ _)
      have htl : ∀ i ∈ rest, isNotNull i = true :=
        fun i hi => h i (List.mem_cons_of_mem _ hi)
      simp only [filterValidItems, checkPetItem_eq_ok item hhd, ih htl]
      by_cases hv : isValidPetItem item = true
      · simp [hv, List.filter_cons]
      · simp [hv, List.filter_cons]

/-- A null element anywhere in the array makes the filter throw. -/
theorem filterValidItems_error_of_null (items : List JValue)
    (h : ∃ i ∈ items, isNotNull i = false) :
    filterValidItems items = Except.error () := by
  induction items with
  | nil => simp at h
  | cons item rest ih =>
      by_cases hhd : isNotNull item = true
      · have htl : ∃ i ∈ rest, isNotNull i = false := by
          obtain ⟨i, hi, hni⟩ := h
          rcases List.mem_cons.mp hi with rfl | hi'
          · rw [hhd] at hni; cases hni
          · exact ⟨i, hi', hni⟩
        simp [filterValidItems, checkPetItem_eq_ok item hhd, ih htl]
      · have hnull : item = JValue.null := by
          cases item <;> simp [isNotNull] at hhd ⊢
        subst hnull
        simp [filterValidItems, checkPetItem]

/-- A claim-side valid element extracts to an emotion belonging to the
fixed emotion list. -/
theorem extractItem_emotion_mem (item : JValue)
    (h : isValidPetItem item = true) :
    (extractItem item).emotion ∈ EMOTIONS := by
  cases item with
  | null => simp [isValidPetItem] at h
  | bool b => simp [isValidPetItem] at h
  | num q => simp [isValidPetItem] at h
  | str s => simp [isValidPetItem] at h
  | arr xs => simp [isValidPetItem] at h
  | obj fields =>
      simp only [isValidPetItem, Bool.and_eq_true] at h
      obtain ⟨⟨-, -⟩, he⟩ := h
      revert he
      cases hE : jLookup fields "emotion" with
      | none => simp [emotionFieldValid]
      | some v =>
        cases v with
        | str e =>
            intro he
            have hmem : e ∈ EMOTIONS := by
              simpa [emotionFieldValid] using he
            simpa [extractItem, hE, jStr] using hmem
        | null => simp [emotionFieldValid]
        | bool b => simp [emotionFieldValid]
        | num q => simp [emotionFieldValid]
        | arr xs => simp [emotionFieldValid]
        | obj fs => simp [emotionFieldValid]

/-- C8 counterexample: the claim asserts success exactly when the parsed
array contains at least one valid element; but an array holding a valid
element followed by `null` makes the filter throw (`null.message`), and
the caught `TypeError` yields an unsuccessful response. -/
theorem chatWithPet_null_element_cex :
    (chatWithPet ⟨"k", "u", "m", "", 1, 100⟩
        (NetOutcome.ok (some ⟨"x",
          some (JValue.arr
            [JValue.obj [("message", JValue.str "hi"),
                         ("emotion", JValue.str "正常.png"),
                         ("japanese", JValue.str "や")],
             JValue.null])⟩))).1.success = false ∧
    isValidPetItem
      (JValue.obj [("message", JValue.str "hi"),
                   ("emotion", JValue.str "正常.png"),
                   ("japanese", JValue.str "や")]) = true := by
  exact ⟨rfl, rfl⟩

/-- A complete configuration, non-empty content parsing as an array with no
null element and some valid element yields the successful response carrying
the extracted valid elements. -/
theorem chatWithPet_success_result (cfg : AIConfig) (reply : AIReply)
    (items : List JValue) (hv : validateAIConfig cfg = true)
    (hc : reply.content ≠ "") (hp : reply.parsed = some (JValue.arr items))
    (hnull : ∀ i ∈ items, isNotNull i = true)
    (hne : (items.filter isValidPetItem) ≠ []) :
    (chatWithPet cfg (NetOutcome.ok (some reply))).1 =
      { success := true,
        data := some ((items.filter isValidPetItem).map extractItem),
        error := none } := by
  have hv2 : ¬ validateAIConfig cfg = false := by simp [hv]
  have hf := filterValidItems_of_noNull items hnull
  have hlen : 0 < (items.filter isValidPetItem).length :=
    List.length_pos.mpr hne
  simp [chatWithPet, hv2, hc, hp, hf, hlen]

/-- Every run of `chatWithPet` either hits the success branch — with
complete configuration, non-empty array content free of nulls and with a
valid element — or returns an unsuccessful response without data. -/
theorem chatWithPet_result_cases (cfg : AIConfig) (net : NetOutcome) :
    (∃ reply items,
        validateAIConfig cfg = true ∧ net = NetOutcome.ok (some reply) ∧
        reply.content ≠ "" ∧ reply.parsed = some (JValue.arr items) ∧
        (∀ i ∈ items, isNotNull i = true) ∧
        (items.filter isValidPetItem) ≠ [] ∧
        (chatWithPet cfg net).1 =
          { success := true,
            data := some ((items.filter isValidPetItem).map extractItem),
            error := none }) ∨
    ((chatWithPet cfg net).1.success = false ∧
      (chatWithPet cfg net).1.data = none) := by
  by_cases hv : validateAIConfig cfg = false
  · right; simp [chatWithPet, hv]
  · have hv' : validateAIConfig cfg = true := by
      revert hv; cases validateAIConfig cfg <;> simp
    cases net with
    | fail msg => right; simp [chatWithPet, hv]
    | ok c =>
      cases c with
      | none => right; simp [chatWithPet, hv]
      | some reply =>
        by_cases hc : reply.content = ""
        · right; simp [chatWithPet, hv, hc]
        · cases hp : reply.parsed with
          | none => right; simp [chatWithPet, hv, hc, hp]
          | some v =>
            cases v with
            | null => right; simp [chatWithPet, hv, hc, hp]
            | bool b => right; simp [chatWithPet, hv, hc, hp]
            | num q => right; simp [chatWithPet, hv, hc, hp]
            | str s => right; simp [chatWithPet, hv, hc, hp]
            | obj fields => right; simp [chatWithPet, hv, hc, hp]
            | arr items =>
                by_cases hnull : ∀ i ∈ items, isNotNull i = true
                · by_cases hne : (items.filter isValidPetItem) = []
                  · have hf := filterValidItems_of_noNull items hnull
                    right; simp [chatWithPet, hv, hc, hp, hf, hne]
                  · left
                    exact ⟨reply, items, hv', rfl, hc, hp, hnull, hne,
                      chatWithPet_success_result cfg reply items hv' hc hp
                        hnull hne⟩
                · have hex : ∃ i ∈ items, isNotNull i = false := by
                    push_neg at hnull
                    obtain ⟨i, hi, hni⟩ := hnull
                    exact ⟨i, hi, by revert hni; cases isNotNull i <;> simp⟩
                  have hf := filterValidItems_error_of_null items hex
                  right; simp [chatWithPet, hv, hc, hp, hf]

/-- C8 (amended): `chatWithPet` succeeds exactly when the configuration is
complete, the reply content is non-empty and parses as a JSON array with
no null element and at least one valid element — an object whose `message`
and `japanese` fields are strings and whose `emotion` is a string in the
fixed emotion list; in that case the returned data is precisely the
subsequence of valid elements in their original order, hence non-empty and
with every emotion a valid emotion name. -/
theorem chatWithPet_success_iff (cfg : AIConfig) (net : NetOutcome) :
    ((chatWithPet cfg net).1.success = true ↔
      ∃ reply items,
        validateAIConfig cfg = true ∧
        net = NetOutcome.ok (some reply) ∧
        reply.content ≠ "" ∧
        reply.parsed = some (JValue.arr items) ∧
        (∀ i ∈ items, isNotNull i = true) ∧
        (items.filter isValidPetItem) ≠ []) ∧
    (∀ reply items, net = NetOutcome.ok (some reply) →
      reply.parsed = some (JValue.arr items) →
      (chatWithPet cfg net).1.success = true →
      (chatWithPet cfg net).1.data =
        some ((items.filter isValidPetItem).map extractItem)) ∧
    (∀ l, (chatWithPet cfg net).1.data = some l →
      l ≠ [] ∧ ∀ it ∈ l, it.emotion ∈ EMOTIONS) := by
  refine ⟨⟨?_, ?_⟩, ?_, ?_⟩
  · intro hs
    obtain hL | hR := chatWithPet_result_cases cfg net
    · obtain ⟨reply, items, hv, hnet, hc, hp, hnull, hne, -⟩ := hL
      exact ⟨reply, items, hv, hnet, hc, hp, hnull, hne⟩
    · rw [hR.1] at hs; cases hs
  · rintro ⟨reply, items, hv, rfl, hc, hp, hnull, hne⟩
    rw [chatWithPet_success_result cfg reply items hv hc hp hnull hne]
  · rintro reply items rfl hp hs
    obtain hL | hR := chatWithPet_result_cases cfg (NetOutcome.ok (some reply))
    · obtain ⟨reply', items', hv, hnet, hc, hp', hnull, hne, hres⟩ := hL
      obtain rfl : reply = reply' := by simpa using hnet
      rw [hp] at hp'
      obtain rfl : items = items' := by simpa using hp'
      rw [hres]
    · rw [hR.1] at hs; cases hs
  · intro l hdata
    obtain hL | hR := chatWithPet_result_cases cfg net
    · obtain ⟨reply, items, hv, hnet, hc, hp, hnull, hne, hres⟩ := hL
      rw [hres] at hdata
      obtain rfl : l = (items.filter isValidPetItem).map extractItem := by
        simpa using hdata.symm
      refine ⟨?_, ?_⟩
      · intro hcon
        exact hne (by simpa using hcon)
      · intro it hit
        obtain ⟨j, hj, rfl⟩ := List.mem_map.mp hit
        exact extractItem_emotion_mem j (List.mem_filter.mp hj).2
    · rw [hR.2] at hdata; cases hdata

/-- C8 witness: a complete configuration and a reply whose content parses
as a one-element array holding a valid item yields a successful result. -/
theorem chatWithPet_success_iff_witness :
    (chatWithPet ⟨"k", "u", "m", "", 1, 100⟩
        (NetOutcome.ok (some ⟨"x",
          some (JValue.arr
            [JValue.obj [("message", JValue.str "hi"),
                         ("emotion", JValue.str "正常.png"),
                         ("japanese", JValue.str "や")]])⟩))).1.success =
      true :=
  (chatWithPet_success_iff ⟨"k", "u", "m", "", 1, 100⟩
      (NetOutcome.ok (some ⟨"x",
        some (JValue.arr
          [JValue.obj [("message", JValue.str "hi"),
                       ("emotion", JValue.str "正常.png"),
                       ("japanese", JValue.str "や")]])⟩))).1.mpr
    ⟨⟨"x", some (JValue.arr
        [JValue.obj [("message", JValue.str "hi"),
                     ("emotion", JValue.str "正常.png"),
                     ("japanese", JValue.str "や")]])⟩,
     [JValue.obj [("message", JValue.str "hi"),
                  ("emotion", JValue.str "正常.png"),
                  ("japanese", JValue.str "や")]],
     rfl, rfl, by decide, rfl, by decide, List.cons_ne_nil _ _⟩

/-!  Theorems about the window factory. -/

/-- A burst of move/resize events — each arriving before the previous
event's timer fires — produces exactly one save, scheduled `DEBOUNCE_MS`
after the last event. -/
theorem debounceFires_burst (events : List Nat) (t : Nat)
    (hburst : events.Chain' (fun a b => b < a + DEBOUNCE_MS))
    (hlast : events.getLast? = some t) :
    debounceFires events = [t + DEBOUNCE_MS] := by
  induction events with
  | nil => simp at hlast
  | cons t1 rest ih =>
      cases rest with
      | nil =>
          obtain rfl : t1 = t := by simpa using hlast
          rfl
      | cons t2 rest2 =>
          have h12 : t2 < t1 + DEBOUNCE_MS := (List.chain'_cons.mp hburst).1
          have hchain2 := (List.chain'_cons.mp hburst).2
          have hlast2 : (t2 :: rest2).getLast? = some t := by
            rw [List.getLast?_cons_cons] at hlast; exact hlast
          simp only [debounceFires, if_pos h12, List.nil_append]
          exact ih hchain2 hlast2

/-- C7: a burst of consecutive move/resize events on a persisted settings
window produces exactly one configuration write, fired `DEBOUNCE_MS`
(200 ms) after the last event; the values written are the logical position
and size, i.e. the physical coordinates divided by the scale factor. -/
theorem settings_persistence_debounced (events : List Nat) (t : Nat)
    (hburst : events.Chain' (fun a b => b < a + DEBOUNCE_MS))
    (hlast : events.getLast? = some t)
    (physical : SettingsWindowBounds) (scaleFactor : ℚ)
    (hscale : scaleFactor ≠ 0) :
    debounceFires events = [t + DEBOUNCE_MS] ∧
    (performDebouncedSave physical scaleFactor).x * scaleFactor =
      physical.x ∧
    (performDebouncedSave physical scaleFactor).y * scaleFactor =
      physical.y ∧
    (performDebouncedSave physical scaleFactor).width * scaleFactor =
      physical.width ∧
    (performDebouncedSave physical scaleFactor).height * scaleFactor =
      physical.height := by
  refine ⟨debounceFires_burst events t hburst hlast, ?_, ?_, ?_, ?_⟩ <;>
    simp [performDebouncedSave, div_mul_cancel₀, hscale]

/-- C7 witness: three events 0, 100 and 250 ms apart by less than the
200 ms debounce produce the single save at 450 ms. -/
theorem settings_persistence_debounced_witness :
    debounceFires [0, 100, 250] = [250 + DEBOUNCE_MS] ∧
    (performDebouncedSave ⟨100, 200, 800, 600⟩ 2).x * 2 = (100 : ℚ) ∧
    (performDebouncedSave ⟨100, 200, 800, 600⟩ 2).y * 2 = (200 : ℚ) ∧
    (performDebouncedSave ⟨100, 200, 800, 600⟩ 2).width * 2 = (800 : ℚ) ∧
    (performDebouncedSave ⟨100, 200, 800, 600⟩ 2).height * 2 = (600 : ℚ) :=
  settings_persistence_debounced [0, 100, 250] 250
    (by norm_num [List.chain'_cons, DEBOUNCE_MS]) (by decide)
    ⟨100, 200, 800, 600⟩ 2 (by norm_num)

/-- Deleting a label leaves no entry with that key. -/
theorem find?_mapDelete (m : WindowMap) (k : String) :
    (mapDelete m k).find? (fun p => p.1 == k) = none := by
  rw [List.find?_eq_none]
  intro x hx
  have hkey := (List.mem_filter.mp hx).2
  simp at hkey ⊢
  exact hkey

/-- `closeWindow` removes the entry for its label. -/
theorem mapGet_mapDelete (m : WindowMap) (k : String) :
    mapGet (mapDelete m k) k = none := by
  simp [mapGet, find?_mapDelete]

/-- The deleted key no longer occurs among the keys. -/
theorem mapDelete_key_not_mem (m : WindowMap) (k : String) :
    k ∉ (mapDelete m k).map Prod.fst := by
  intro hk
  obtain ⟨p, hp, hp1⟩ := List.mem_map.mp hk
  have hkey := (List.mem_filter.mp hp).2
  rw [hp1] at hkey
  simp at hkey

/-- A successful `createWindow` appends the new registration after the
delete pass. -/
theorem createWindowOp_ok_eq (m : WindowMap) (label : String)
    (inst : WinInstance) :
    createWindowOp m label inst true = mapDelete m label ++ [(label, inst)] := by
  have hany : (mapDelete m label).any (fun p => p.1 == label) = false := by
    rw [List.any_eq_false]
    intro x hx
    have hkey := (List.mem_filter.mp hx).2
    simp at hkey ⊢
    exact hkey
  simp [createWindowOp, closeWindowOp, mapSet, hany]

/-- Looking up a label right after a successful `createWindow` yields the
newly created instance. -/
theorem mapGet_createWindowOp (m : WindowMap) (label : String)
    (inst : WinInstance) :
    mapGet (createWindowOp m label inst true) label = some inst := by
  rw [createWindowOp_ok_eq]
  simp [mapGet, List.find?_append, find?_mapDelete]

/-- Deletion preserves distinctness of the registered labels. -/
theorem mapDelete_nodup (m : WindowMap) (k : String)
    (hm : (m.map Prod.fst).Nodup) :
    ((mapDelete m k).map Prod.fst).Nodup :=
  hm.sublist ((List.filter_sublist m).map Prod.fst)

/-- Every operation on the instances map preserves distinctness of the
registered labels. -/
theorem applyWinOp_nodup (m : WindowMap) (op : WinOp)
    (hm : (m.map Prod.fst).Nodup) :
    ((applyWinOp m op).map Prod.fst).Nodup := by
  cases op with
  | close label => exact mapDelete_nodup m label hm
  | destroyed label => exact mapDelete_nodup m label hm
  | create label inst ok =>
      cases ok with
      | false => exact mapDelete_nodup m label hm
      | true =>
          have heq := createWindowOp_ok_eq m label inst
          show ((createWindowOp m label inst true).map Prod.fst).Nodup
          rw [heq, List.map_append]
          refine List.nodup_append.mpr
            ⟨mapDelete_nodup m label hm, List.nodup_singleton _, ?_⟩
          intro a ha hb
          obtain rfl : a = label := by simpa using hb
          exact mapDelete_key_not_mem m _ ha

/-- Any sequence of window operations preserves distinctness of the
registered labels. -/
theorem runWinOps_nodup (ops : List WinOp) :
    ∀ m : WindowMap, (m.map Prod.fst).Nodup →
      ((runWinOps m ops).map Prod.fst).Nodup := by
  induction ops with
  | nil => exact fun _ hm => hm
  | cons op rest ih => exact fun m hm => ih _ (applyWinOp_nodup m op hm)

/-- C10: starting from a map with distinct labels, any sequence of
`createWindow`/`closeWindow`/destroy events keeps the labels distinct — at
most one live instance per label; a successful `createWindow` makes the
label look up to the newly created window, and `closeWindow` removes the
label's instance. -/
theorem windowFactory_label_invariant (m : WindowMap) (ops : List WinOp)
    (hm : (m.map Prod.fst).Nodup) :
    ((runWinOps m ops).map Prod.fst).Nodup ∧
    (∀ label inst, mapGet (createWindowOp m label inst true) label =
      some inst) ∧
    (∀ label, mapGet (closeWindowOp m label) label = none) :=
  ⟨runWinOps_nodup ops m hm,
   fun label inst => mapGet_createWindowOp m label inst,
   fun label => mapGet_mapDelete m label⟩

/-- C10 witness: re-creating the settings window twice and closing another
label keeps labels distinct; lookups behave as stated. -/
theorem windowFactory_label_invariant_witness :
    ((runWinOps []
        [WinOp.create "settings" ⟨"settings", 1⟩ true,
         WinOp.create "settings" ⟨"settings", 2⟩ true,
         WinOp.close "chat-bubble"]).map Prod.fst).Nodup ∧
    mapGet (createWindowOp [] "settings" ⟨"settings", 1⟩ true) "settings" =
      some ⟨"settings", 1⟩ ∧
    mapGet (closeWindowOp [] "settings") "settings" = none := by
  obtain ⟨h1, h2, h3⟩ := windowFactory_label_invariant []
    [WinOp.create "settings" ⟨"settings", 1⟩ true,
     WinOp.create "settings" ⟨"settings", 2⟩ true,
     WinOp.close "chat-bubble"] (by simp)
  exact ⟨h1, h2 "settings" ⟨"settings", 1⟩, h3 "settings"⟩

end LingPet
